import Mathlib

/-!
Verification of `src/cerata/ubase/stty.c` (the glaucus repository's patched ubase
stty implementation).

The shallow embedding below translates the C source into Lean definitions.
Numeric values of the termios bit masks, control-character indices, baud
constants and line-discipline numbers are the Linux/glibc values for the
platform this tool targets (the repository builds it with glibc on Linux with
`_DEFAULT_SOURCE`, so `XCASE` and `CMSPAR` are defined and their catalog
entries are present).  `tcflag_t` is a 32-bit unsigned integer, so flag groups
are modelled as natural numbers together with a 32-bit complement operator
`cpl`; `cc_t` is an unsigned byte.  The `c_cc` array is modelled as a list
covering the 17 indices the program ever reads or writes (VINTR .. VEOL2).
-/

deriving instance DecidableEq for Except

namespace Stty

/-- Whether the first character of the string is `c` (the C idiom
`*arg == c`; an empty string yields the NUL terminator). -/
def strHead (s : String) (c : Char) : Bool :=
  s.toList.headD (Char.ofNat 0) == c

/-! ## termios constants (Linux/glibc) -/

-- c_iflag bits
def IGNBRK : Nat := 1
def BRKINT : Nat := 2
def IGNPAR : Nat := 4
def PARMRK : Nat := 8
def INPCK : Nat := 16
def ISTRIP : Nat := 32
def INLCR : Nat := 64
def IGNCR : Nat := 128
def ICRNL : Nat := 256
def IUCLC : Nat := 512
def IXON : Nat := 1024
def IXANY : Nat := 2048
def IXOFF : Nat := 4096
def IMAXBEL : Nat := 8192
def IUTF8 : Nat := 16384

-- c_oflag bits
def OPOST : Nat := 1
def OLCUC : Nat := 2
def ONLCR : Nat := 4
def OCRNL : Nat := 8
def ONOCR : Nat := 16
def ONLRET : Nat := 32
def OFILL : Nat := 64
def OFDEL : Nat := 128
def NLDLY : Nat := 256
def NL0 : Nat := 0
def NL1 : Nat := 256
def CRDLY : Nat := 1536
def CR0 : Nat := 0
def CR1 : Nat := 512
def CR2 : Nat := 1024
def CR3 : Nat := 1536
def TABDLY : Nat := 6144
def TAB0 : Nat := 0
def TAB1 : Nat := 2048
def TAB2 : Nat := 4096
def TAB3 : Nat := 6144
def BSDLY : Nat := 8192
def BS0 : Nat := 0
def BS1 : Nat := 8192
def VTDLY : Nat := 16384
def VT0 : Nat := 0
def VT1 : Nat := 16384
def FFDLY : Nat := 32768
def FF0 : Nat := 0
def FF1 : Nat := 32768

-- c_cflag bits
def CSIZE : Nat := 48
def CS5 : Nat := 0
def CS6 : Nat := 16
def CS7 : Nat := 32
def CS8 : Nat := 48
def CSTOPB : Nat := 64
def CREAD : Nat := 128
def PARENB : Nat := 256
def PARODD : Nat := 512
def HUPCL : Nat := 1024
def CLOCAL : Nat := 2048
def CMSPAR : Nat := 1073741824
def CRTSCTS : Nat := 2147483648

-- c_lflag bits
def ISIG : Nat := 1
def ICANON : Nat := 2
def XCASE : Nat := 4
def ECHO : Nat := 8
def ECHOE : Nat := 16
def ECHOK : Nat := 32
def ECHONL : Nat := 64
def NOFLSH : Nat := 128
def TOSTOP : Nat := 256
def ECHOCTL : Nat := 512
def ECHOPRT : Nat := 1024
def ECHOKE : Nat := 2048
def FLUSHO : Nat := 4096
def IEXTEN : Nat := 32768
def EXTPROC : Nat := 65536

-- c_cc indices
def VINTR : Nat := 0
def VQUIT : Nat := 1
def VERASE : Nat := 2
def VKILL : Nat := 3
def VEOF : Nat := 4
def VTIME : Nat := 5
def VMIN : Nat := 6
def VSWTC : Nat := 7
def VSTART : Nat := 8
def VSTOP : Nat := 9
def VSUSP : Nat := 10
def VEOL : Nat := 11
def VREPRINT : Nat := 12
def VDISCARD : Nat := 13
def VWERASE : Nat := 14
def VLNEXT : Nat := 15
def VEOL2 : Nat := 16

-- sys/ttydefaults.h control-character defaults
def CINTR : Nat := 3
def CQUIT : Nat := 28
def CERASE : Nat := 127
def CKILL : Nat := 21
def CEOF : Nat := 4
def CEOL : Nat := 0
def CSTART : Nat := 17
def CSTOP : Nat := 19
def CSUSP : Nat := 26
def CLNEXT : Nat := 22
def CDISCARD : Nat := 15
def CWERASE : Nat := 23
def CRPRNT : Nat := 18
def POSIX_VDISABLE : Nat := 0

-- CC_MAX from the source
def CC_MAX : Nat := 255

-- catalog attribute tags (the anonymous enum in the source)
def BOOL : Nat := 1
def DUP : Nat := 2
def SANE : Nat := 4
def INSANE : Nat := 8
def CBREAK : Nat := 16
def DECCTLQ : Nat := 32
def LCASE : Nat := 64
def PASS8 : Nat := 128
def LITOUT : Nat := 256
def CRT : Nat := 1024
def DEC : Nat := 2048
def NL : Nat := 4096
def COOKED : Nat := 8192
def DEF : Nat := 16384

/-! ## 32-bit mask arithmetic

`tcflag_t` is `unsigned int` (32 bits); `bits &= ~m` in C is modelled by
`bits &&& cpl m` where `cpl` is the 32-bit one's complement. -/

def mask32 : Nat := 2 ^ 32 - 1

def cpl (m : Nat) : Nat := mask32 ^^^ (m &&& mask32)

/-! ## The terminal state (struct termios) and the process state -/

structure Termios where
  c_iflag : Nat
  c_oflag : Nat
  c_cflag : Nat
  c_lflag : Nat
  c_line : Nat
  c_cc : List Nat
  c_ispeed : Nat
  c_ospeed : Nat
deriving DecidableEq, Repr

/-- The working state of one run: the termios copy being mutated plus the
window size and the three global request flags of the source file. -/
structure St where
  t : Termios
  ws_row : Nat
  ws_col : Nat
  output_size_requested : Bool
  output_speed_requested : Bool
  drain_requested : Bool
deriving DecidableEq, Repr

/-! ## Catalog record types -/

structure Key where
  op : String
  index : Nat
  sanevalue : Nat
deriving DecidableEq, Repr

/-- The `keys` table (struct key keys[]). -/
def keys : List Key := [
  ⟨"discard", VDISCARD, CDISCARD⟩,
  ⟨"eof",     VEOF,     CEOF⟩,
  ⟨"eol",     VEOL,     CEOL⟩,
  ⟨"eol2",    VEOL2,    POSIX_VDISABLE⟩,
  ⟨"erase",   VERASE,   CERASE⟩,
  ⟨"intr",    VINTR,    CINTR⟩,
  ⟨"kill",    VKILL,    CKILL⟩,
  ⟨"lnext",   VLNEXT,   CLNEXT⟩,
  ⟨"quit",    VQUIT,    CQUIT⟩,
  ⟨"rprnt",   VREPRINT, CRPRNT⟩,
  ⟨"start",   VSTART,   CSTART⟩,
  ⟨"stop",    VSTOP,    CSTOP⟩,
  ⟨"susp",    VSUSP,    CSUSP⟩,
  ⟨"swtch",   VSWTC,    POSIX_VDISABLE⟩,
  ⟨"werase",  VWERASE,  CWERASE⟩]

/-! ## Combination side-effect routines

These are direct translations of the static functions of the same names in
the source.  Routines that only touch the termios copy take and return a
`Termios`; the ones that touch the global request flags are lifted to `St`
by the dispatcher `modeFun` below. -/

/-- The `raw` routine.  Note that on this platform `XCASE` is defined, so the
`#ifdef XCASE` block is active. -/
def rawFn (unset : Bool) (t : Termios) : Termios :=
  if !unset then
    { t with
      c_iflag := 0,
      c_lflag := t.c_lflag &&& cpl XCASE,
      c_cc := (t.c_cc.set VMIN 1).set VTIME 0 }
  else
    { t with c_iflag := t.c_iflag ||| (BRKINT ||| IGNPAR ||| ISTRIP ||| ICRNL ||| IXON) }

/-- The `evenp` routine.  The source mutates `m->c_oflag` here (with the
control-flag masks CSIZE/PARENB/PARODD/CS7/CS8); the translation keeps that
faithfully. -/
def evenpFn (unset : Bool) (t : Termios) : Termios :=
  let o := t.c_oflag &&& cpl CSIZE
  let o := o &&& cpl (if unset then PARENB else PARODD)
  let o := o ||| (if unset then CS8 else CS7 ||| PARENB)
  { t with c_oflag := o }

/-- The `dec` routine. -/
def decFn (t : Termios) : Termios :=
  { t with c_cc := ((t.c_cc.set VINTR CINTR).set VKILL CKILL).set VERASE CERASE }

/-- The `ek` routine. -/
def ekFn (t : Termios) : Termios :=
  { t with c_cc := (t.c_cc.set VKILL CKILL).set VERASE CERASE }

/-- The `nl` routine. -/
def nlFn (unset : Bool) (t : Termios) : Termios :=
  if unset then
    { t with
      c_iflag := t.c_iflag &&& cpl (INLCR ||| IGNCR),
      c_oflag := t.c_oflag &&& cpl (OCRNL ||| ONLRET) }
  else t

/-- The `oddp` routine.  As with `evenp`, the source mutates `m->c_oflag`. -/
def oddpFn (unset : Bool) (t : Termios) : Termios :=
  let o := t.c_oflag &&& cpl CSIZE
  let o := o &&& cpl (if unset then PARENB else 0)
  let o := o ||| (if unset then CS8 else CS7 ||| PARODD ||| PARENB)
  { t with c_oflag := o }

/-- The `pass8` routine. -/
def pass8Fn (unset : Bool) (t : Termios) : Termios :=
  { t with c_cflag := (t.c_cflag &&& cpl CSIZE) ||| (if unset then CS7 else CS8) }

/-- The `tabs` routine. -/
def tabsFn (unset : Bool) (t : Termios) : Termios :=
  { t with c_oflag := (t.c_oflag &&& cpl TABDLY) ||| (if unset then TAB3 else TAB0) }

/-- The `sane` routine: every key operand is reset to its sane value, then
min and time are clamped. -/
def saneFn (t : Termios) : Termios :=
  let cc := keys.foldl (fun cc k => cc.set k.index k.sanevalue) t.c_cc
  { t with c_cc := (cc.set VMIN 1).set VTIME 0 }

/-- Tags naming the side-effect routines a catalog entry may carry (the
function pointers of the source). -/
inductive Fn
  | raw | evenp | dec | ek | nl | oddp | drain | cooked | pass8 | size | speed | tabs | sane
deriving DecidableEq, Repr

/-- Dispatch of a side-effect routine against the working state. -/
def modeFun : Fn → Bool → St → St
  | .raw, unset, st => { st with t := rawFn unset st.t }
  | .evenp, unset, st => { st with t := evenpFn unset st.t }
  | .dec, _, st => { st with t := decFn st.t }
  | .ek, _, st => { st with t := ekFn st.t }
  | .nl, unset, st => { st with t := nlFn unset st.t }
  | .oddp, unset, st => { st with t := oddpFn unset st.t }
  | .drain, unset, st => { st with drain_requested := !unset }
  | .cooked, unset, st => { st with t := rawFn (!unset) st.t }
  | .pass8, unset, st => { st with t := pass8Fn unset st.t }
  | .size, _, st => { st with output_size_requested := true }
  | .speed, _, st => { st with output_speed_requested := true }
  | .tabs, unset, st => { st with t := tabsFn unset st.t }
  | .sane, _, st => { st with t := saneFn st.t }

/-! ## The mode catalog -/

inductive Ty
  | CTRL | IN | OUT | LOCAL | COMB | SPEC
deriving DecidableEq, Repr

structure Mode where
  op : String
  type : Ty
  set : Nat
  clear : Nat
  fn : Option Fn
  flags : Nat
deriving DecidableEq, Repr

set_option maxHeartbeats 1600000 in
/-- The `modes` table (struct mode modes[]), in source order, without the
null terminator.  `XCASE` and `CMSPAR` are defined on this platform, so the
conditional entries are present. -/
def modes : List Mode := [
  ⟨"clocal",   .CTRL,  CLOCAL,  0,       none,         BOOL⟩,
  ⟨"cmspar",   .CTRL,  CMSPAR,  0,       none,         BOOL⟩,
  ⟨"cread",    .CTRL,  CREAD,   0,       none,         BOOL ||| SANE⟩,
  ⟨"crtscts",  .CTRL,  CRTSCTS, 0,       none,         BOOL⟩,
  ⟨"cs5",      .CTRL,  CS5,     CSIZE,   none,         0⟩,
  ⟨"cs6",      .CTRL,  CS6,     CSIZE,   none,         0⟩,
  ⟨"cs7",      .CTRL,  CS7,     CSIZE,   none,         0⟩,
  ⟨"cs8",      .CTRL,  CS8,     CSIZE,   none,         DEF⟩,
  ⟨"cstopb",   .CTRL,  CSTOPB,  0,       none,         BOOL⟩,
  ⟨"hup",      .CTRL,  HUPCL,   0,       none,         BOOL ||| DUP⟩,
  ⟨"hupcl",    .CTRL,  HUPCL,   0,       none,         BOOL ||| DEF⟩,
  ⟨"parenb",   .CTRL,  PARENB,  0,       none,         BOOL ||| PASS8 ||| LITOUT⟩,
  ⟨"parodd",   .CTRL,  PARODD,  0,       none,         BOOL⟩,
  ⟨"brkint",   .IN,    BRKINT,  0,       none,         BOOL ||| SANE⟩,
  ⟨"icrnl",    .IN,    ICRNL,   0,       none,         BOOL ||| SANE ||| NL⟩,
  ⟨"ignbrk",   .IN,    IGNBRK,  0,       none,         BOOL ||| INSANE⟩,
  ⟨"igncr",    .IN,    IGNCR,   0,       none,         BOOL ||| INSANE⟩,
  ⟨"ignpar",   .IN,    IGNPAR,  0,       none,         BOOL⟩,
  ⟨"imaxbel",  .IN,    IMAXBEL, 0,       none,         BOOL ||| SANE⟩,
  ⟨"inlcr",    .IN,    INLCR,   0,       none,         BOOL ||| INSANE⟩,
  ⟨"inpck",    .IN,    INPCK,   0,       none,         BOOL⟩,
  ⟨"istrip",   .IN,    ISTRIP,  0,       none,         BOOL ||| PASS8 ||| LITOUT⟩,
  ⟨"iuclc",    .IN,    IUCLC,   0,       none,         BOOL ||| INSANE ||| LCASE⟩,
  ⟨"iutf8",    .IN,    IUTF8,   0,       none,         BOOL ||| SANE⟩,
  ⟨"ixany",    .IN,    IXANY,   0,       none,         BOOL ||| INSANE ||| DECCTLQ⟩,
  ⟨"ixoff",    .IN,    IXOFF,   0,       none,         BOOL ||| INSANE⟩,
  ⟨"ixon",     .IN,    IXON,    0,       none,         BOOL ||| DEF⟩,
  ⟨"parmrk",   .IN,    PARMRK,  0,       none,         BOOL⟩,
  ⟨"tandem",   .IN,    IXOFF,   0,       none,         BOOL ||| DUP⟩,
  ⟨"bs0",      .OUT,   BS0,     BSDLY,   none,         SANE⟩,
  ⟨"bs1",      .OUT,   BS1,     BSDLY,   none,         INSANE⟩,
  ⟨"cr0",      .OUT,   CR0,     CRDLY,   none,         SANE⟩,
  ⟨"cr1",      .OUT,   CR1,     CRDLY,   none,         INSANE⟩,
  ⟨"cr2",      .OUT,   CR2,     CRDLY,   none,         INSANE⟩,
  ⟨"cr3",      .OUT,   CR3,     CRDLY,   none,         INSANE⟩,
  ⟨"ff0",      .OUT,   FF0,     FFDLY,   none,         SANE⟩,
  ⟨"ff1",      .OUT,   FF1,     FFDLY,   none,         INSANE⟩,
  ⟨"nl0",      .OUT,   NL0,     NLDLY,   none,         SANE⟩,
  ⟨"nl1",      .OUT,   NL1,     NLDLY,   none,         INSANE⟩,
  ⟨"ocrnl",    .OUT,   OCRNL,   0,       none,         BOOL ||| INSANE⟩,
  ⟨"ofdel",    .OUT,   OFDEL,   0,       none,         BOOL ||| INSANE⟩,
  ⟨"ofill",    .OUT,   OFILL,   0,       none,         BOOL ||| INSANE⟩,
  ⟨"olcuc",    .OUT,   OLCUC,   0,       none,         BOOL ||| INSANE ||| LCASE⟩,
  ⟨"onlcr",    .OUT,   ONLCR,   0,       none,         BOOL ||| SANE ||| NL⟩,
  ⟨"onlret",   .OUT,   ONLRET,  0,       none,         BOOL ||| INSANE⟩,
  ⟨"onocr",    .OUT,   ONOCR,   0,       none,         BOOL ||| INSANE⟩,
  ⟨"opost",    .OUT,   OPOST,   0,       none,         BOOL ||| SANE ||| LITOUT ||| COOKED⟩,
  ⟨"tab0",     .OUT,   TAB0,    TABDLY,  none,         SANE⟩,
  ⟨"tab1",     .OUT,   TAB1,    TABDLY,  none,         INSANE⟩,
  ⟨"tab2",     .OUT,   TAB2,    TABDLY,  none,         INSANE⟩,
  ⟨"tab3",     .OUT,   TAB3,    TABDLY,  none,         INSANE⟩,
  ⟨"vt0",      .OUT,   VT0,     VTDLY,   none,         SANE⟩,
  ⟨"vt1",      .OUT,   VT1,     VTDLY,   none,         INSANE⟩,
  ⟨"crterase", .LOCAL, ECHOE,   0,       none,         BOOL ||| DUP⟩,
  ⟨"crtkill",  .LOCAL, ECHOKE,  0,       none,         BOOL ||| DUP⟩,
  ⟨"ctlecho",  .LOCAL, ECHOCTL, 0,       none,         BOOL ||| DUP⟩,
  ⟨"echo",     .LOCAL, ECHO,    0,       none,         BOOL ||| SANE⟩,
  ⟨"echoctl",  .LOCAL, ECHOCTL, 0,       none,         BOOL ||| SANE ||| CRT ||| DEC⟩,
  ⟨"echoe",    .LOCAL, ECHOE,   0,       none,         BOOL ||| SANE ||| CRT ||| DEC⟩,
  ⟨"echok",    .LOCAL, ECHOK,   0,       none,         BOOL ||| SANE⟩,
  ⟨"echoke",   .LOCAL, ECHOKE,  0,       none,         BOOL ||| SANE ||| CRT ||| DEC⟩,
  ⟨"echonl",   .LOCAL, ECHONL,  0,       none,         BOOL ||| INSANE⟩,
  ⟨"echoprt",  .LOCAL, ECHOPRT, 0,       none,         BOOL ||| INSANE⟩,
  ⟨"extproc",  .LOCAL, EXTPROC, 0,       none,         BOOL ||| INSANE⟩,
  ⟨"flusho",   .LOCAL, FLUSHO,  0,       none,         BOOL ||| INSANE⟩,
  ⟨"icanon",   .LOCAL, ICANON,  0,       none,         BOOL ||| SANE ||| CBREAK ||| COOKED⟩,
  ⟨"iexten",   .LOCAL, IEXTEN,  0,       none,         BOOL ||| SANE⟩,
  ⟨"isig",     .LOCAL, ISIG,    0,       none,         BOOL ||| SANE ||| COOKED⟩,
  ⟨"noflsh",   .LOCAL, NOFLSH,  0,       none,         BOOL ||| INSANE⟩,
  ⟨"prterase", .LOCAL, ECHOPRT, 0,       none,         BOOL ||| DUP⟩,
  ⟨"tostop",   .LOCAL, TOSTOP,  0,       none,         BOOL ||| INSANE⟩,
  ⟨"xcase",    .LOCAL, XCASE,   0,       none,         BOOL ||| INSANE ||| LCASE⟩,
  ⟨"cbreak",   .COMB,  0,       CBREAK,  none,         BOOL ||| DUP⟩,
  ⟨"cooked",   .COMB,  COOKED,  0,       some .cooked, BOOL ||| DUP⟩,
  ⟨"crt",      .COMB,  CRT,     0,       none,         DUP⟩,
  ⟨"dec",      .COMB,  DEC,     DECCTLQ, some .dec,    DUP⟩,
  ⟨"decctlq",  .COMB,  0,       DECCTLQ, none,         BOOL ||| DUP⟩,
  ⟨"ek",       .COMB,  0,       0,       some .ek,     DUP⟩,
  ⟨"evenp",    .COMB,  0,       0,       some .evenp,  BOOL ||| DUP⟩,
  ⟨"LCASE",    .COMB,  LCASE,   0,       none,         BOOL ||| DUP⟩,
  ⟨"lcase",    .COMB,  LCASE,   0,       none,         BOOL ||| DUP⟩,
  ⟨"litout",   .COMB,  0,       LITOUT,  some .pass8,  BOOL ||| DUP⟩,
  ⟨"nl",       .COMB,  0,       NL,      some .nl,     BOOL ||| DUP⟩,
  ⟨"oddp",     .COMB,  0,       0,       some .oddp,   BOOL ||| DUP⟩,
  ⟨"parity",   .COMB,  0,       0,       some .evenp,  BOOL ||| DUP⟩,
  ⟨"pass8",    .COMB,  0,       PASS8,   some .pass8,  BOOL ||| DUP⟩,
  ⟨"raw",      .COMB,  0,       COOKED,  some .raw,    BOOL ||| DUP⟩,
  ⟨"sane",     .COMB,  SANE,    INSANE,  some .sane,   DUP⟩,
  ⟨"tabs",     .COMB,  0,       0,       some .tabs,   BOOL ||| DUP⟩,
  ⟨"size",     .SPEC,  0,       0,       some .size,   DUP⟩,
  ⟨"speed",    .SPEC,  0,       0,       some .speed,  DUP⟩,
  ⟨"drain",    .SPEC,  0,       0,       some .drain,  BOOL ||| DUP⟩]

/-! ## Flag mutation primitive and mode-operand resolution -/

/-- The body of `setoperand_mode` acting on one flag group: clear the
clear-mask first, then either OR in or AND out the set-mask depending on
polarity (`unset = true` is the hyphen polarity). -/
def applyBits (bits sset clear : Nat) (unset : Bool) : Nat :=
  let b := bits &&& cpl clear
  if unset then b &&& cpl sset else b ||| sset

/-- `setoperand_mode`: apply one catalog entry to the working state.  `COMB`
entries never reach this function from `parseoperand_mode` (the C source
aborts on them); they are mapped to the identity on the flag groups. -/
def setoperand_mode (unset : Bool) (op : Mode) (st : St) : St :=
  let st1 :=
    match op.type with
    | .CTRL => { st with t := { st.t with c_cflag := applyBits st.t.c_cflag op.set op.clear unset } }
    | .IN => { st with t := { st.t with c_iflag := applyBits st.t.c_iflag op.set op.clear unset } }
    | .OUT => { st with t := { st.t with c_oflag := applyBits st.t.c_oflag op.set op.clear unset } }
    | .LOCAL => { st with t := { st.t with c_lflag := applyBits st.t.c_lflag op.set op.clear unset } }
    | .SPEC => st
    | .COMB => st
  match op.fn with
  | some f => modeFun f unset st1
  | none => st1

/-- One iteration of the combination-expansion loop of `parseoperand_mode`:
entries whose tags meet the combination's clear-tags are applied with the
inverted polarity, then entries whose tags meet its set-tags with the
requested polarity. -/
def combStep (unset : Bool) (fset funset : Nat) (st : St) (op : Mode) : St :=
  if op.type = .COMB then st
  else
    let st1 := if funset != 0 && (op.flags &&& funset) != 0 then setoperand_mode (!unset) op st else st
    if fset != 0 && (op.flags &&& fset) != 0 then setoperand_mode unset op st1 else st1

/-- First catalog entry whose name equals `name` (the `strcmp` scan). -/
def findMode (name : String) : Option Mode :=
  modes.find? (fun op => op.op == name)

/-- `parseoperand_mode`: `none` models the C return value -1 (name unknown,
or hyphen polarity requested on a non-BOOL entry). -/
def parseoperand_mode (arg : String) (st : St) : Option St :=
  match findMode (if strHead arg ('-') then arg.drop 1 else arg) with
  | none => none
  | some op =>
    if strHead arg ('-') && (op.flags &&& BOOL) == 0 then none
    else
      match op.type with
      | .COMB =>
        let st1 :=
          if op.clear != 0 || op.set != 0 then
            modes.foldl (combStep (strHead arg ('-')) op.set op.clear) st
          else st
        some (match op.fn with
              | some f => modeFun f (strHead arg ('-')) st1
              | none => st1)
      | _ => some (setoperand_mode (strHead arg ('-')) op st)

/-! ## Number parsing -/

/-- Value of one digit character in the given base. -/
def digitVal (base : Nat) (c : Char) : Option Nat :=
  let v :=
    if c.isDigit then some (c.toNat - 48)
    else if 97 ≤ c.toNat && c.toNat ≤ 102 then some (c.toNat - 87)
    else if 65 ≤ c.toNat && c.toNat ≤ 70 then some (c.toNat - 55)
    else none
  match v with
  | some d => if d < base then some d else none
  | none => none

def parseDigits (base : Nat) : List Char → Nat → Option Nat
  | [], acc => some acc
  | c :: rest, acc =>
    match digitVal base c with
    | some d => parseDigits base rest (acc * base + d)
    | none => none

/-- `strtoll(numstr, &ep, 0)` requiring the whole string to be consumed
(`*ep == 0`), as `estrtonum_anyradix` demands: optional leading blanks and
sign, `0x`/`0X` hex, leading `0` octal, decimal otherwise. -/
def strtollAll (s : String) : Option Int :=
  let cs := (s.toList).dropWhile (fun c => c = ' ' || c = '\t')
  let sn : Bool × List Char :=
    match cs with
    | '-' :: r => (true, r)
    | '+' :: r => (false, r)
    | r => (false, r)
  let mag : Option Nat :=
    match sn.2 with
    | '0' :: 'x' :: r => if r.isEmpty then none else parseDigits 16 r 0
    | '0' :: 'X' :: r => if r.isEmpty then none else parseDigits 16 r 0
    | '0' :: r => parseDigits 8 r 0
    | [] => none
    | r => parseDigits 10 r 0
  mag.map (fun m => if sn.1 then -(m : Int) else (m : Int))

/-- `estrtonum_anyradix` from the source: parse in any radix and range-check,
failing the run (an `eprintf` exit) otherwise. -/
def estrtonum_anyradix (numstr : String) (minval maxval : Int) : Except String Int :=
  match strtollAll numstr with
  | none => .error (("strtoll ") ++ numstr ++ (": invalid"))
  | some ll =>
    if ll < minval then .error (("strtoll ") ++ numstr ++ (": too small"))
    else if maxval < ll then .error (("strtoll ") ++ numstr ++ (": too large"))
    else .ok ll

/-- Modelled from the spec: `estrtonum` comes from ubase's `util.h` library,
which is not among the sources; per the spec's operand descriptions it parses
a bounded decimal integer and aborts the run with a diagnostic when the token
is unparsable or out of range. -/
def estrtonum (numstr : String) (minval maxval : Int) : Except String Int :=
  let cs := (numstr.toList).dropWhile (fun c => c = ' ' || c = '\t')
  let sn : Bool × List Char :=
    match cs with
    | '-' :: r => (true, r)
    | '+' :: r => (false, r)
    | r => (false, r)
  match (if sn.2.isEmpty then none else parseDigits 10 sn.2 0) with
  | none => .error (("strtonum ") ++ numstr ++ (": invalid"))
  | some m =>
    let ll : Int := if sn.1 then -(m : Int) else (m : Int)
    if ll < minval then .error (("strtonum ") ++ numstr ++ (": too small"))
    else if maxval < ll then .error (("strtonum ") ++ numstr ++ (": too large"))
    else .ok ll

/-! ## Key operands -/

/-- Decoding of the value token following a key operand, per
`parseoperand_key`: `^-`/`undef` give the disabled sentinel, `^?` gives DEL,
an empty or one-character token gives its first byte (the empty string gives
the NUL terminator, byte 0), `^X` gives the control form, anything else is a
bounded any-radix integer 0..255. -/
def keyValue (arg1 : String) : Except String Nat :=
  if arg1 = "^-" || arg1 = "undef" then .ok POSIX_VDISABLE
  else if arg1 = "^?" then .ok 127
  else if arg1.length = 0 || arg1.length = 1 then
    .ok (((arg1.toList.headD (Char.ofNat 0)).toNat) % 256)
  else if arg1.toList.headD (Char.ofNat 0) = '^' then
    .ok ((((arg1.toList.drop 1).headD (Char.ofNat 0)).toNat % 256) &&& 159)
  else
    (estrtonum_anyradix arg1 0 (Int.ofNat CC_MAX)).map Int.toNat

/-! ## Integer-valued operands -/

inductive IntOp
  | cols | min | rows | stime | ispeed | ospeed
deriving DecidableEq, Repr

structure Intvalued where
  op : String
  fn : IntOp
deriving DecidableEq, Repr

/-- The `ints` table. -/
def ints : List Intvalued := [
  ⟨"cols",    .cols⟩,
  ⟨"columns", .cols⟩,
  ⟨"min",     .min⟩,
  ⟨"rows",    .rows⟩,
  ⟨"time",    .stime⟩,
  ⟨"ispeed",  .ispeed⟩,
  ⟨"ospeed",  .ospeed⟩]

/-! ## Speeds and line disciplines -/

structure Speed where
  str : String
  speed : Nat
deriving DecidableEq, Repr

/-- The `speeds` table with the Linux `B...` constant values, in source
order. -/
def speeds : List Speed := [
  ⟨"0", 0⟩, ⟨"50", 1⟩, ⟨"75", 2⟩, ⟨"110", 3⟩, ⟨"134", 4⟩, ⟨"150", 5⟩, ⟨"200", 6⟩, ⟨"300", 7⟩,
  ⟨"600", 8⟩, ⟨"1200", 9⟩, ⟨"1800", 10⟩, ⟨"2400", 11⟩, ⟨"4800", 12⟩, ⟨"9600", 13⟩,
  ⟨"19200", 14⟩, ⟨"38400", 15⟩,
  ⟨"57600", 4097⟩, ⟨"115200", 4098⟩, ⟨"230400", 4099⟩, ⟨"460800", 4100⟩, ⟨"500000", 4101⟩,
  ⟨"576000", 4102⟩, ⟨"921600", 4103⟩, ⟨"1000000", 4104⟩, ⟨"1152000", 4105⟩, ⟨"1500000", 4106⟩,
  ⟨"2000000", 4107⟩, ⟨"2500000", 4108⟩, ⟨"3000000", 4109⟩, ⟨"3500000", 4110⟩, ⟨"4000000", 4111⟩,
  ⟨"134.5", 4⟩,
  ⟨"exta", 14⟩,
  ⟨"extb", 15⟩]

structure LineEnt where
  str : String
  value : Nat
deriving DecidableEq, Repr

/-- The `lines` table with the Linux `N_...` values. -/
def lines : List LineEnt := [
  ⟨"tty", 0⟩, ⟨"slip", 1⟩, ⟨"mouse", 2⟩, ⟨"ppp", 3⟩, ⟨"strip", 4⟩, ⟨"ax25", 5⟩,
  ⟨"x25", 6⟩, ⟨"6pack", 7⟩, ⟨"masc", 8⟩, ⟨"r3964", 9⟩, ⟨"profibus", 10⟩, ⟨"irda", 11⟩,
  ⟨"smsblock", 12⟩, ⟨"hdlc", 13⟩, ⟨"syncppp", 14⟩, ⟨"hci", 15⟩]

/-- `baudtostr`: scan the speed table for the first entry carrying the value,
falling back to the string `0`. -/
def baudtostr (baud : Nat) : String :=
  match speeds.find? (fun sp => sp.speed == baud) with
  | some sp => sp.str
  | none => "0"

/-- `parsespeed`: first table entry whose name equals the token. -/
def parsespeed (arg : String) : Option Speed :=
  speeds.find? (fun sp => sp.str == arg)

/-- The `line` operand setter: a name from the table, else a bounded decimal
0..255. -/
def lineFn (arg : String) (t : Termios) : Except String Termios :=
  match lines.find? (fun ln => ln.str == arg) with
  | some ln => .ok { t with c_line := ln.value }
  | none => (estrtonum arg 0 255).map (fun v => { t with c_line := v.toNat })

/-! ## State codec (hex encode/decode) -/

/-- One lowercase hex digit, as `printf("%02x")` produces for values 0..15. -/
def hexDigitChar (n : Nat) : Char :=
  if n < 10 then Char.ofNat (48 + n) else Char.ofNat (87 + n)

/-- The `-g` output: each byte of the state printed as two lowercase hex
digits, in order. -/
def encodehex : List Nat → List Char
  | [] => []
  | b :: rest => hexDigitChar (b / 16) :: hexDigitChar (b % 16) :: encodehex rest

/-- Value of one hex character per the arithmetic of `decodehex`:
`(c & 15) + 9 * !isdigit(c)`. -/
def decodeCharVal (c : Char) : Nat :=
  (c.toNat &&& 15) + 9 * (if c.isDigit then 0 else 1)

/-- One byte from two hex characters: `(hi << 4) | lo` stored into a char. -/
def decodePair (hi lo : Char) : Nat :=
  ((decodeCharVal hi <<< 4) ||| decodeCharVal lo) % 256

/-- `decodehex`: consume the characters two at a time.  The callers only pass
even-length strings (the length is checked against twice the struct size
before the call); on an odd tail the C code would read the terminator as the
low digit. -/
def decodehexChars : List Char → List Nat
  | hi :: lo :: rest => decodePair hi lo :: decodehexChars rest
  | [hi] => [decodePair hi (Char.ofNat 0)]
  | [] => []

def isxdigitB (c : Char) : Bool :=
  c.isDigit || (97 ≤ c.toNat && c.toNat ≤ 102) || (65 ≤ c.toNat && c.toNat ≤ 70)

/-- `isxnumber`: non-empty and all hex digits. -/
def isxnumber (s : String) : Bool :=
  !s.isEmpty && s.toList.all isxdigitB

/-- `sizeof(struct termios)` on the target platform (glibc x86-64): 60. -/
def sizeofTermios : Nat := 60

/-- Little-endian 32-bit read at a byte offset. -/
def rd32 (bs : List Nat) (off : Nat) : Nat :=
  bs.getD off 0 + 256 * bs.getD (off + 1) 0 + 65536 * bs.getD (off + 2) 0 +
    16777216 * bs.getD (off + 3) 0

/-- Reassemble a `Termios` from the raw byte image `decodehex` wrote, per the
glibc x86-64 layout of struct termios (flags at 0/4/8/12, line at 16, c_cc at
17, speeds at 52/56). -/
def termiosOfBytes (bs : List Nat) : Termios :=
  { c_iflag := rd32 bs 0
    c_oflag := rd32 bs 4
    c_cflag := rd32 bs 8
    c_lflag := rd32 bs 12
    c_line := bs.getD 16 0
    c_cc := (List.range 17).map (fun i => bs.getD (17 + i) 0)
    c_ispeed := rd32 bs 52
    c_ospeed := rd32 bs 56 }

/-! ## Integer-operand dispatch -/

/-- Dispatch of the `ints` table setters.  `cols`/`rows` go through
`setwinsize` (an ioctl on the device, modelled as the window-size fields of
the working state); `ispeed`/`ospeed` go through `eparsespeed` and
`cfsetispeed`/`cfsetospeed` (modelled as the two speed fields). -/
def intFun (f : IntOp) (arg : String) (st : St) : Except String St :=
  match f with
  | .cols => (estrtonum arg 0 65535).map (fun v => { st with ws_col := v.toNat })
  | .rows => (estrtonum arg 0 65535).map (fun v => { st with ws_row := v.toNat })
  | .min => (estrtonum arg 0 (Int.ofNat CC_MAX)).map
      (fun v => { st with t := { st.t with c_cc := st.t.c_cc.set VMIN v.toNat } })
  | .stime => (estrtonum arg 0 (Int.ofNat CC_MAX)).map
      (fun v => { st with t := { st.t with c_cc := st.t.c_cc.set VTIME v.toNat } })
  | .ispeed =>
    match parsespeed arg with
    | none => .error (("invalid speed parameter: ") ++ arg)
    | some sp => .ok { st with t := { st.t with c_ispeed := sp.speed } }
  | .ospeed =>
    match parsespeed arg with
    | none => .error (("invalid speed parameter: ") ++ arg)
    | some sp => .ok { st with t := { st.t with c_ospeed := sp.speed } }

/-! ## The operand loop of main -/

/-- The argument loop of `main`, folding the operand tokens left to right.
Fatal diagnostics (`eprintf`/`goto invalid`) are the `.error` results; per
the source they end the run with a non-zero exit before any later operand is
looked at. -/
def processArgs (st : St) : List String → Except String St
  | [] => .ok st
  | a :: rest =>
    if strHead a ('=') then
      let p := a.drop 1
      if p.length = 2 * sizeofTermios && isxnumber p then
        processArgs { st with t := termiosOfBytes (decodehexChars p.toList) } rest
      else .error (("invalid operand: ") ++ a)
    else
      match parseoperand_mode a st with
      | some st1 => processArgs st1 rest
      | none =>
        match keys.find? (fun k => k.op == a) with
        | some k =>
          match rest with
          | [] => .error (("missing argument for operand: ") ++ a)
          | v :: rest2 =>
            match keyValue v with
            | .error e => .error e
            | .ok val =>
              processArgs { st with t := { st.t with c_cc := st.t.c_cc.set k.index val } } rest2
        | none =>
          match ints.find? (fun io => io.op == a) with
          | some io =>
            match rest with
            | [] => .error (("missing argument for operand: ") ++ a)
            | v :: rest2 =>
              match intFun io.fn v st with
              | .error e => .error e
              | .ok st1 => processArgs st1 rest2
          | none =>
            if a = "line" then
              match rest with
              | [] => .error (("missing argument for operand: ") ++ a)
              | v :: rest2 =>
                match lineFn v st.t with
                | .error e => .error e
                | .ok t1 => processArgs { st with t := t1 } rest2
            else
              match parsespeed a with
              | some sp =>
                processArgs { st with t := { st.t with c_ispeed := sp.speed, c_ospeed := sp.speed } } rest
              | none => .error (("invalid operand: ") ++ a)

/-! ## Flag parsing and the run model -/

/-- The flag loop at the top of `main`: `-a`, `-g`, the combined forms, and
`--`; the first token matching none of them ends flag parsing. -/
def parseFlagsAux (aflag gflag : Bool) : List String → Bool × Bool × List String
  | [] => (aflag, gflag, [])
  | a :: rest =>
    if a = "-ag" || a = "-ga" then parseFlagsAux true true rest
    else if a = "-g" then parseFlagsAux aflag true rest
    else if a = "-a" then parseFlagsAux true gflag rest
    else if a = "--" then (aflag, gflag, rest)
    else (aflag, gflag, a :: rest)

/-- Externally visible outcome of one run. -/
structure Effects where
  usageError : Bool
  exitCode : Nat
  errMsg : Option String
  committed : Option Termios
  printedHex : Bool
  printedDump : Bool
deriving DecidableEq, Repr

/-- Modelled from the spec: `usage` calls util's `eprintf`, whose definition
is not among the sources; per the spec the combined `-a -g` usage diagnostic
is written to standard error but does not abort the run (`-g` then takes
precedence in the output), while operand diagnostics are fatal with a
non-zero exit.  Everything else here mirrors the control flow of `main`
after the snapshot, against an ideal device (the commit read-back returns
what was written, so verification passes). -/
def runMain (st0 : St) (argv : List String) : Effects :=
  let pr := parseFlagsAux false false argv
  let aflag := pr.1
  let gflag := pr.2.1
  let rest := pr.2.2
  let usageErr := aflag && gflag
  match processArgs st0 rest with
  | .error e =>
    { usageError := usageErr, exitCode := 1, errMsg := some e, committed := none,
      printedHex := false, printedDump := false }
  | .ok st1 =>
    let comm := if st1.t = st0.t then none else some st1.t
    { usageError := usageErr, exitCode := 0, errMsg := none, committed := comm,
      printedHex := gflag,
      printedDump := (aflag || rest.isEmpty) && !gflag }

/-! ## Display formatter (mode section) -/

/-- `isdefault` from the source. -/
def isdefault (flags : Nat) : Bool :=
  if (flags &&& (SANE ||| INSANE)) != 0 then
    ((flags &&& SANE) != 0) || ((flags &&& INSANE) == 0)
  else (flags &&& DEF) != 0

/-- The flag group a display iteration reads for an entry (`bitsp`); `none`
for combination and special entries. -/
def groupBits (ty : Ty) (t : Termios) : Option Nat :=
  match ty with
  | .CTRL => some t.c_cflag
  | .IN => some t.c_iflag
  | .OUT => some t.c_oflag
  | .LOCAL => some t.c_lflag
  | .COMB => none
  | .SPEC => none

/-- The display mask of an entry: its clear-mask when present, else its
set-mask (`mask = mod->clear ? mod->clear : mod->set`). -/
def maskOf (md : Mode) : Nat :=
  if md.clear != 0 then md.clear else md.set

/-- The token one catalog entry contributes to the mode section of
`displaysettings`, if any. -/
def modeToken (t : Termios) (all : Bool) (md : Mode) : Option String :=
  match groupBits md.type t with
  | none => none
  | some bits =>
    if (md.flags &&& DUP) != 0 then none
    else
      if (bits &&& maskOf md) == md.set then
        if all || !(isdefault md.flags) then some md.op else none
      else if (md.flags &&& BOOL) != 0 then
        if all || isdefault md.flags then some (("-") ++ md.op) else none
      else none

/-- The mode section of the settings dump: the tokens printed by the final
loop of `displaysettings`, in catalog order. -/
def displayModes (t : Termios) (all : Bool) : List String :=
  modes.filterMap (modeToken t all)

/-! ## Operand classes (for the no-match diagnostic) -/

/-- Whether `parseoperand_mode` accepts the token. -/
def modeMatches (arg : String) : Bool :=
  match findMode (if strHead arg ('-') then arg.drop 1 else arg) with
  | none => false
  | some op => !(strHead arg ('-') && (op.flags &&& BOOL) == 0)

/-- A token matching none of the operand classes of the resolver: not a raw
state literal, not a mode operand, not a key operand, not an integer-valued
operand, not `line`, not a bare speed. -/
def noClassMatch (arg : String) : Bool :=
  !(strHead arg ('=')) && !(modeMatches arg) &&
    (keys.find? (fun k => k.op == arg)).isNone &&
    (ints.find? (fun io => io.op == arg)).isNone &&
    (arg != "line") &&
    (parsespeed arg).isNone

/-! ## Concrete sample states -/

/-- An all-zero termios with a full c_cc array. -/
def tZero : Termios :=
  { c_iflag := 0, c_oflag := 0, c_cflag := 0, c_lflag := 0, c_line := 0,
    c_cc := List.replicate 17 0, c_ispeed := 0, c_ospeed := 0 }

def stZero : St :=
  { t := tZero, ws_row := 24, ws_col := 80, output_size_requested := false,
    output_speed_requested := false, drain_requested := true }

def stClocal : St :=
  { stZero with t := { tZero with c_cflag := CLOCAL } }

/-! ## Bit-level helper lemmas -/

theorem testBit_mask32 (i : Nat) : mask32.testBit i = decide (i < 32) :=
  Nat.testBit_two_pow_sub_one 32 i

theorem testBit_cpl (m i : Nat) :
    (cpl m).testBit i = (decide (i < 32) && !(m.testBit i)) := by
  simp only [cpl, Nat.testBit_xor, Nat.testBit_and, testBit_mask32]
  by_cases hi : i < 32
  · have hdec : decide (i < 32) = true := decide_eq_true hi
    cases hm : m.testBit i <;> simp [hdec, hm]
  · have hdec : decide (i < 32) = false := decide_eq_false hi
    simp [hdec]

theorem land_mask32_eq {b : Nat} (hb : b < 2 ^ 32) : b &&& mask32 = b := by
  apply Nat.eq_of_testBit_eq
  intro i
  by_cases hi : i < 32
  · have hdec : decide (i < 32) = true := decide_eq_true hi
    simp [Nat.testBit_and, testBit_mask32, hdec]
  · have hdec : decide (i < 32) = false := decide_eq_false hi
    have hbi : b.testBit i = false :=
      Nat.testBit_lt_two_pow (lt_of_lt_of_le hb (Nat.pow_le_pow_right (by omega) (by omega)))
    simp [Nat.testBit_and, testBit_mask32, hdec, hbi]

theorem cpl_zero_land {b : Nat} (hb : b < 2 ^ 32) : b &&& cpl 0 = b := by
  have h0 : cpl 0 = mask32 := by simp [cpl]
  rw [h0]
  exact land_mask32_eq hb

theorem lor_land_cpl_cancel {b s : Nat} (hb : b < 2 ^ 32) (hd : b &&& s = 0) :
    (b ||| s) &&& cpl s = b := by
  apply Nat.eq_of_testBit_eq
  intro i
  have h := congrArg (fun n => Nat.testBit n i) hd
  simp only [Nat.testBit_and, Nat.zero_testBit] at h
  by_cases hi : i < 32
  · have hdec : decide (i < 32) = true := decide_eq_true hi
    simp only [Nat.testBit_and, Nat.testBit_or, testBit_cpl, hdec, Bool.true_and]
    cases hbi : b.testBit i <;> cases hsi : s.testBit i <;> simp_all
  · have hdec : decide (i < 32) = false := decide_eq_false hi
    have hbi : b.testBit i = false :=
      Nat.testBit_lt_two_pow (lt_of_lt_of_le hb (Nat.pow_le_pow_right (by omega) (by omega)))
    simp [Nat.testBit_and, Nat.testBit_or, testBit_cpl, hdec, hbi]

/-! ## Resolver helper lemmas -/

theorem parseoperand_mode_none {arg : String} (st : St) (h : modeMatches arg = false) :
    parseoperand_mode arg st = none := by
  unfold modeMatches at h
  unfold parseoperand_mode
  cases hf : findMode (if strHead arg ('-') then arg.drop 1 else arg) with
  | none => rfl
  | some op =>
    rw [hf] at h
    simp at h
    simp [h]

theorem parseFlagsAux_tt (l : List String) :
    ∃ r, parseFlagsAux true true l = (true, true, r) := by
  induction l with
  | nil => exact ⟨[], rfl⟩
  | cons a rest ih =>
    unfold parseFlagsAux
    split
    · exact ih
    · split
      · exact ih
      · split
        · exact ih
        · split
          · exact ⟨rest, rfl⟩
          · exact ⟨a :: rest, rfl⟩

/-! ## Codec helper lemmas -/

set_option maxRecDepth 8192 in
theorem decodePair_encode (b : Nat) (hb : b < 256) :
    decodePair (hexDigitChar (b / 16)) (hexDigitChar (b % 16)) = b := by
  revert hb
  revert b
  decide

theorem applyBits_false (b s c : Nat) : applyBits b s c false = (b &&& cpl c) ||| s := rfl

theorem applyBits_true (b s c : Nat) : applyBits b s c true = (b &&& cpl c) &&& cpl s := rfl

/-! ## Claim C1 -/

/-- C1: the claim states that the `evenp`/`parity`/`oddp` combination
routines recompute the character-size and parity bits of the *control* flag
group.  The code instead applies those control-flag masks to the *output*
flag group: `evenpFn` and `oddpFn` never change `c_cflag` (for any state and
either polarity), and on the all-zero state the full resolution of `evenp`,
`parity` and `oddp` leaves the control group at 0 while writing
CS7/PARENB/PARODD (and CS8 for the unset polarity) into the output group. -/
theorem C1_parity_mutates_output_not_control :
    (∀ (st : St) (unset : Bool),
      (modeFun .evenp unset st).t.c_cflag = st.t.c_cflag
      ∧ (modeFun .oddp unset st).t.c_cflag = st.t.c_cflag)
    ∧ (parseoperand_mode ("evenp") stZero).map (fun s => (s.t.c_cflag, s.t.c_oflag))
        = some (0, CS7 ||| PARENB)
    ∧ (parseoperand_mode ("parity") stZero).map (fun s => (s.t.c_cflag, s.t.c_oflag))
        = some (0, CS7 ||| PARENB)
    ∧ (parseoperand_mode ("oddp") stZero).map (fun s => (s.t.c_cflag, s.t.c_oflag))
        = some (0, CS7 ||| PARODD ||| PARENB)
    ∧ (parseoperand_mode ("-evenp") stZero).map (fun s => (s.t.c_cflag, s.t.c_oflag))
        = some (0, CS8) :=
  ⟨fun _ _ => ⟨rfl, rfl⟩, by decide, by decide, by decide, by decide⟩

/-! ## Claim C3 -/

/-- C3 counterexample: the claim asserts that applying a BOOL operand and
then its hyphen form restores the affected flag group for *every* starting
state.  Starting from a state whose control group already has CLOCAL set,
`clocal` followed by `-clocal` leaves the control group at 0, not at its
original CLOCAL pattern. -/
theorem C3_counterexample :
    stClocal.t.c_cflag = CLOCAL
    ∧ ((parseoperand_mode ("clocal") stClocal).bind
        (fun s => parseoperand_mode ("-clocal") s)).map (fun s => s.t.c_cflag) = some 0
    ∧ (decide (((parseoperand_mode ("clocal") stClocal).bind
        (fun s => parseoperand_mode ("-clocal") s)).map (fun s => s.t.c_cflag)
          = some stClocal.t.c_cflag)) = false := by
  decide

/-- C3 amended: for every BOOL-tagged non-combination mode operand, applying
the set polarity and then the unset polarity restores the whole state
provided the operand's set-bits were clear in the affected flag group
beforehand (such entries have an empty clear-mask and no side-effect
routine, so the round trip is exact under that proviso; the counterexample
shows the proviso is necessary). -/
theorem C3_negation_symmetry_amended (op : Mode) (st : St)
    (hmem : op ∈ modes)
    (hty : op.type = Ty.CTRL ∨ op.type = Ty.IN ∨ op.type = Ty.OUT ∨ op.type = Ty.LOCAL)
    (hbool : op.flags &&& BOOL ≠ 0)
    (hwf : st.t.c_cflag < 2 ^ 32 ∧ st.t.c_iflag < 2 ^ 32
      ∧ st.t.c_oflag < 2 ^ 32 ∧ st.t.c_lflag < 2 ^ 32)
    (hdisj : ((groupBits op.type st.t).getD 0) &&& op.set = 0) :
    setoperand_mode true op (setoperand_mode false op st) = st := by
  have hall : ∀ x ∈ modes,
      (x.type = Ty.CTRL ∨ x.type = Ty.IN ∨ x.type = Ty.OUT ∨ x.type = Ty.LOCAL) →
      x.flags &&& BOOL ≠ 0 → x.clear = 0 ∧ x.fn = none ∧ x.set < 2 ^ 32 := by decide
  obtain ⟨hclear, hfn, hset⟩ := hall op hmem hty hbool
  rcases hty with hty | hty | hty | hty
  · have hg : st.t.c_cflag &&& op.set = 0 := by rw [hty] at hdisj; exact hdisj
    have e1 : setoperand_mode false op st
        = { st with t := { st.t with c_cflag := (st.t.c_cflag &&& cpl 0) ||| op.set } } := by
      simp only [setoperand_mode, hty, hfn, hclear, applyBits_false]
    rw [e1]
    simp only [setoperand_mode, hty, hfn, hclear, applyBits_true]
    rw [cpl_zero_land hwf.1, cpl_zero_land (Nat.or_lt_two_pow hwf.1 hset),
      lor_land_cpl_cancel hwf.1 hg]
  · have hg : st.t.c_iflag &&& op.set = 0 := by rw [hty] at hdisj; exact hdisj
    have e1 : setoperand_mode false op st
        = { st with t := { st.t with c_iflag := (st.t.c_iflag &&& cpl 0) ||| op.set } } := by
      simp only [setoperand_mode, hty, hfn, hclear, applyBits_false]
    rw [e1]
    simp only [setoperand_mode, hty, hfn, hclear, applyBits_true]
    rw [cpl_zero_land hwf.2.1, cpl_zero_land (Nat.or_lt_two_pow hwf.2.1 hset),
      lor_land_cpl_cancel hwf.2.1 hg]
  · have hg : st.t.c_oflag &&& op.set = 0 := by rw [hty] at hdisj; exact hdisj
    have e1 : setoperand_mode false op st
        = { st with t := { st.t with c_oflag := (st.t.c_oflag &&& cpl 0) ||| op.set } } := by
      simp only [setoperand_mode, hty, hfn, hclear, applyBits_false]
    rw [e1]
    simp only [setoperand_mode, hty, hfn, hclear, applyBits_true]
    rw [cpl_zero_land hwf.2.2.1, cpl_zero_land (Nat.or_lt_two_pow hwf.2.2.1 hset),
      lor_land_cpl_cancel hwf.2.2.1 hg]
  · have hg : st.t.c_lflag &&& op.set = 0 := by rw [hty] at hdisj; exact hdisj
    have e1 : setoperand_mode false op st
        = { st with t := { st.t with c_lflag := (st.t.c_lflag &&& cpl 0) ||| op.set } } := by
      simp only [setoperand_mode, hty, hfn, hclear, applyBits_false]
    rw [e1]
    simp only [setoperand_mode, hty, hfn, hclear, applyBits_true]
    rw [cpl_zero_land hwf.2.2.2, cpl_zero_land (Nat.or_lt_two_pow hwf.2.2.2 hset),
      lor_land_cpl_cancel hwf.2.2.2 hg]

/-- Witness for the amended C3 theorem: the `clocal` entry applied to the
all-zero state and negated again restores the state exactly. -/
theorem C3_negation_symmetry_amended_witness :
    (⟨"clocal", Ty.CTRL, CLOCAL, 0, none, BOOL⟩ : Mode) ∈ modes
    ∧ setoperand_mode true ⟨"clocal", Ty.CTRL, CLOCAL, 0, none, BOOL⟩
        (setoperand_mode false ⟨"clocal", Ty.CTRL, CLOCAL, 0, none, BOOL⟩ stZero) = stZero :=
  ⟨by decide,
    C3_negation_symmetry_amended ⟨"clocal", Ty.CTRL, CLOCAL, 0, none, BOOL⟩ stZero
      (by decide) (Or.inl rfl) (by decide) (by decide) (by decide)⟩

/-! ## Claim C4 -/

/-- C4: the state codec round-trips: decoding the lowercase-hex string
produced by encoding any byte sequence (every byte below 256, as for the raw
bytes of a termios image) yields the same byte sequence. -/
theorem C4_roundtrip (s : List Nat) (h : ∀ b ∈ s, b < 256) :
    decodehexChars (encodehex s) = s := by
  induction s with
  | nil => rfl
  | cons b rest ih =>
    have hb : b < 256 := h b (List.mem_cons_self b rest)
    have hr : ∀ x ∈ rest, x < 256 := fun x hx => h x (List.mem_cons_of_mem b hx)
    simp only [encodehex, decodehexChars]
    rw [decodePair_encode b hb, ih hr]

/-- Witness for C4 on a concrete byte string. -/
theorem C4_roundtrip_witness :
    (∀ b ∈ [0, 171, 255, 16], b < 256)
    ∧ decodehexChars (encodehex [0, 171, 255, 16]) = [0, 171, 255, 16] :=
  ⟨by decide, C4_roundtrip ([0, 171, 255, 16]) (by decide)⟩

/-! ## Claim C5 -/

/-- C5 counterexample: the claim states that `baudtostr` returns the
last-listed name of a duplicated baud value; for B19200 (value 14) the last
listed name is `exta`, but the function returns `19200`. -/
theorem C5_counterexample :
    ((speeds.reverse.find? (fun sp => sp.speed == 14)).map Speed.str) = some ("exta")
    ∧ baudtostr 14 = ("19200")
    ∧ (baudtostr 14 == ("exta")) = false := by
  decide

/-- C5 amended: for a baud value denoted by several speed-table names,
`baudtostr` returns the *first*-listed matching entry: `134` (not `134.5`),
`19200` (not `exta`), `38400` (not `extb`). -/
theorem C5_first_listed :
    ((speeds.filter (fun sp => sp.speed == 4)).map Speed.str = [("134"), ("134.5")]
      ∧ baudtostr 4 = ("134"))
    ∧ ((speeds.filter (fun sp => sp.speed == 14)).map Speed.str = [("19200"), ("exta")]
      ∧ baudtostr 14 = ("19200"))
    ∧ ((speeds.filter (fun sp => sp.speed == 15)).map Speed.str = [("38400"), ("extb")]
      ∧ baudtostr 15 = ("38400")) := by
  decide

/-! ## Claim C9 -/

/-- C9: the flag mutation primitive clears the clear-mask first and only
then applies the set-mask with the requested polarity; consequently a
character-size entry such as `cs7` (whose clear-mask CSIZE overlaps its
set-mask) leaves the size field exactly at its set value, preserves all
non-CSIZE bits, and resolving the `cs7` catalog entry rewrites the control
group to `(old & ~CSIZE) | CS7`. -/
theorem C9_clear_before_set (b sset clear : Nat) (unset : Bool) :
    applyBits b sset clear unset
      = (if unset then (b &&& cpl clear) &&& cpl sset else (b &&& cpl clear) ||| sset)
    ∧ applyBits b CS7 CSIZE false &&& CSIZE = CS7
    ∧ applyBits b CS7 CSIZE false &&& cpl CSIZE = b &&& cpl CSIZE
    ∧ ∀ st : St, (parseoperand_mode ("cs7") st).map (fun s => s.t.c_cflag)
        = some ((st.t.c_cflag &&& cpl CSIZE) ||| CS7) := by
  refine ⟨rfl, ?_, ?_, fun st => rfl⟩
  · have h1 : cpl CSIZE &&& CSIZE = 0 := by decide
    have h2 : CS7 &&& CSIZE = CS7 := by decide
    rw [applyBits_false, Nat.and_distrib_right, Nat.and_assoc, h1, h2]
    simp
  · have h3 : CS7 &&& cpl CSIZE = 0 := by decide
    rw [applyBits_false, Nat.and_distrib_right, Nat.and_assoc, Nat.and_self, h3]
    simp

/-! ## Claim C10 -/

/-- C10: an empty value token after a key operand is accepted (not rejected
as malformed) and stores byte 0: `keyValue` maps the empty string to 0, and
`erase` followed by the empty token resolves to setting VERASE to NUL. -/
theorem C10_empty_key_value (st : St) (h : st.t.c_cc.length = 17) :
    keyValue ("") = .ok 0
    ∧ processArgs st [("erase"), ("")]
        = .ok { st with t := { st.t with c_cc := st.t.c_cc.set VERASE 0 } }
    ∧ (processArgs st [("erase"), ("")]).toOption.map
        (fun s => s.t.c_cc.getD VERASE 99) = some 0 := by
  refine ⟨rfl, rfl, ?_⟩
  have e : processArgs st [("erase"), ("")]
      = .ok { st with t := { st.t with c_cc := st.t.c_cc.set VERASE 0 } } := rfl
  rw [e]
  have h2 : VERASE < st.t.c_cc.length := by rw [h]; decide
  simp [Except.toOption, List.getD_eq_getElem?_getD, List.getElem?_set_self h2]

/-- Witness for C10 at the all-zero state. -/
theorem C10_empty_key_value_witness :
    stZero.t.c_cc.length = 17
    ∧ keyValue ("") = .ok 0
    ∧ (processArgs stZero [("erase"), ("")]).toOption.map
        (fun s => s.t.c_cc.getD VERASE 99) = some 0 :=
  ⟨rfl, (C10_empty_key_value stZero rfl).1, (C10_empty_key_value stZero rfl).2.2⟩

/-! ## Claim C6 -/

/-- C6 counterexample: the claim states that in "all" display mode every
mode-operand catalog entry, DUP-tagged aliases included, appears in the mode
section.  The DUP-tagged alias `hup` is a catalog entry, yet neither `hup`
nor `-hup` occurs in the mode section rendered with `all = true` for the
all-zero state (the display loop skips every DUP entry unconditionally). -/
theorem C6_counterexample :
    (modes.map Mode.op).contains ("hup") = true
    ∧ (displayModes tZero true).contains ("hup") = false
    ∧ (displayModes tZero true).contains ("-hup") = false := by
  decide

/-- C6 amended: in "all" display mode the mode section renders exactly the
non-DUP flag-group entries: a DUP-tagged entry or one without a flag group
(combination/special) contributes no token, and a non-DUP flag-group entry
contributes its bare name when its masked bits equal its set pattern, and
its hyphen-prefixed name otherwise provided it is BOOL-tagged. -/
theorem C6_all_mode_amended (t : Termios) (all : Bool) (md : Mode) (hmem : md ∈ modes) :
    ((md.flags &&& DUP ≠ 0 → modeToken t all md = none)
      ∧ (groupBits md.type t = none → modeToken t all md = none))
    ∧ ∀ g, groupBits md.type t = some g → md.flags &&& DUP = 0 →
        ((g &&& maskOf md = md.set → md.op ∈ displayModes t true)
          ∧ (¬(g &&& maskOf md = md.set) → md.flags &&& BOOL ≠ 0 →
              (("-") ++ md.op) ∈ displayModes t true)) := by
  refine ⟨⟨?_, ?_⟩, ?_⟩
  · intro hdup
    unfold modeToken
    cases hg : groupBits md.type t with
    | none => rfl
    | some g => simp [hdup]
  · intro hnone
    unfold modeToken
    rw [hnone]
  · intro g hg hdup
    constructor
    · intro hs
      have htok : modeToken t true md = some md.op := by
        unfold modeToken
        rw [hg]
        simp [hdup, hs]
      exact List.mem_filterMap.mpr ⟨md, hmem, htok⟩
    · intro hns hbool
      have htok : modeToken t true md = some (("-") ++ md.op) := by
        unfold modeToken
        rw [hg]
        simp [hdup, hns, hbool]
      exact List.mem_filterMap.mpr ⟨md, hmem, htok⟩

/-- Witness for the amended C6 theorem: on the all-zero state the non-DUP
BOOL entry `clocal` does not match its set pattern, so its hyphen form is in
the all-mode dump. -/
theorem C6_all_mode_amended_witness :
    (("-") ++ ("clocal")) ∈ displayModes tZero true := by
  have h := (C6_all_mode_amended tZero true ⟨"clocal", Ty.CTRL, CLOCAL, 0, none, BOOL⟩
    (by decide)).2 0 rfl (by decide)
  exact h.2 (by decide) (by decide)

/-! ## Claim C8 -/

/-- C8: resolving the `raw` combination leaves the input flag group empty
and sets VMIN to 1 and VTIME to 0, for every starting state; resolving
`-raw` instead ORs the fixed default input bit set
BRKINT|IGNPAR|ISTRIP|ICRNL|IXON into the input flag group. -/
theorem C8_raw_combination (st : St) (h : st.t.c_cc.length = 17) :
    (parseoperand_mode ("raw") st).map
        (fun s => (s.t.c_iflag, s.t.c_cc.getD VMIN 99, s.t.c_cc.getD VTIME 99))
      = some (0, 1, 0)
    ∧ (parseoperand_mode ("-raw") st).map (fun s => s.t.c_iflag)
      = some (st.t.c_iflag ||| (BRKINT ||| IGNPAR ||| ISTRIP ||| ICRNL ||| IXON)) := by
  constructor
  · have e : parseoperand_mode ("raw") st = some { st with t := { st.t with
        c_iflag := 0,
        c_oflag := applyBits st.t.c_oflag OPOST 0 true,
        c_lflag := applyBits (applyBits st.t.c_lflag ICANON 0 true) ISIG 0 true &&& cpl XCASE,
        c_cc := (st.t.c_cc.set VMIN 1).set VTIME 0 } } := rfl
    rw [e]
    have h6 : VMIN < st.t.c_cc.length := by rw [h]; decide
    have h5 : VTIME < (st.t.c_cc.set VMIN 1).length := by
      rw [List.length_set, h]; decide
    have hne : VTIME ≠ VMIN := by decide
    simp [List.getD_eq_getElem?_getD, List.getElem?_set_ne hne,
      List.getElem?_set_self h6, List.getElem?_set_self h5]
  · rfl

/-- Witness for C8 at the all-zero state. -/
theorem C8_raw_combination_witness :
    stZero.t.c_cc.length = 17
    ∧ (parseoperand_mode ("raw") stZero).map
        (fun s => (s.t.c_iflag, s.t.c_cc.getD VMIN 99, s.t.c_cc.getD VTIME 99))
      = some (0, 1, 0)
    ∧ (parseoperand_mode ("-raw") stZero).map (fun s => s.t.c_iflag)
      = some (stZero.t.c_iflag ||| (BRKINT ||| IGNPAR ||| ISTRIP ||| ICRNL ||| IXON)) :=
  ⟨rfl, (C8_raw_combination stZero rfl).1, (C8_raw_combination stZero rfl).2⟩

/-! ## Claim C2 -/

/-- C2: with both `-a` and `-g` on the command line the run flags the usage
error, yet continues: it is not aborted by the clash, and `-g` takes
precedence in the output — the display dump is always suppressed, and when
operand processing succeeds the run exits 0 and prints the single hex
line. -/
theorem C2_ag_usage (st0 : St) (ops : List String) :
    (runMain st0 (("-a") :: ("-g") :: ops)).usageError = true
    ∧ (runMain st0 (("-a") :: ("-g") :: ops)).printedDump = false
    ∧ ((runMain st0 (("-a") :: ("-g") :: ops)).errMsg = none →
        (runMain st0 (("-a") :: ("-g") :: ops)).printedHex = true
        ∧ (runMain st0 (("-a") :: ("-g") :: ops)).exitCode = 0) := by
  have hf : parseFlagsAux false false (("-a") :: ("-g") :: ops)
      = parseFlagsAux true true ops := rfl
  obtain ⟨r, hr⟩ := parseFlagsAux_tt ops
  unfold runMain
  rw [hf, hr]
  cases hp : processArgs st0 r with
  | error e => simp [hp]
  | ok st1 => simp [hp]

/-- Witness for C2: a concrete `-a -g` run with no operands keeps exit code
0, prints the hex line and suppresses the dump. -/
theorem C2_ag_usage_witness :
    (runMain stZero [("-a"), ("-g")]).usageError = true
    ∧ (runMain stZero [("-a"), ("-g")]).printedDump = false
    ∧ (runMain stZero [("-a"), ("-g")]).printedHex = true
    ∧ (runMain stZero [("-a"), ("-g")]).exitCode = 0 :=
  ⟨(C2_ag_usage stZero []).1, (C2_ag_usage stZero []).2.1,
    ((C2_ag_usage stZero []).2.2 (by decide)).1,
    ((C2_ag_usage stZero []).2.2 (by decide)).2⟩

/-! ## Claim C7 -/

/-- C7: a token matching no operand class makes the run fail with a single
diagnostic naming the token: the operand loop returns that error from any
state no matter what operands follow (so none of them is processed), and the
run exits non-zero without committing anything to the device. -/
theorem C7_invalid_operand (tk : String) (st0 : St) (post : List String)
    (hno : noClassMatch tk = true)
    (hfl : tk ≠ "-ag" ∧ tk ≠ "-ga" ∧ tk ≠ "-g" ∧ tk ≠ "-a" ∧ tk ≠ "--") :
    (∀ st : St, processArgs st (tk :: post) = .error (("invalid operand: ") ++ tk))
    ∧ (runMain st0 (tk :: post)).errMsg = some (("invalid operand: ") ++ tk)
    ∧ (runMain st0 (tk :: post)).committed = none
    ∧ (runMain st0 (tk :: post)).exitCode = 1 := by
  simp only [noClassMatch, Bool.and_eq_true, Bool.not_eq_true',
    Option.isNone_iff_eq_none, bne_iff_ne] at hno
  obtain ⟨⟨⟨⟨⟨h1, h2⟩, h3⟩, h4⟩, h5⟩, h6⟩ := hno
  have hmain : ∀ s : St, processArgs s (tk :: post) = .error (("invalid operand: ") ++ tk) := by
    intro s
    cases post with
    | nil => simp [processArgs, h1, parseoperand_mode_none s h2, h3, h4, h5, h6]
    | cons v rest2 => simp [processArgs, h1, parseoperand_mode_none s h2, h3, h4, h5, h6]
  have hpf : parseFlagsAux false false (tk :: post) = (false, false, tk :: post) := by
    unfold parseFlagsAux
    simp [hfl.1, hfl.2.1, hfl.2.2.1, hfl.2.2.2.1, hfl.2.2.2.2]
  have hrm : runMain st0 (tk :: post)
      = { usageError := false, exitCode := 1,
          errMsg := some (("invalid operand: ") ++ tk), committed := none,
          printedHex := false, printedDump := false } := by
    unfold runMain
    rw [hpf]
    simp [hmain st0]
  refine ⟨hmain, ?_, ?_, ?_⟩ <;> rw [hrm]

/-- Witness for C7: the unknown token `bogus` errors out, names itself in
the diagnostic, and nothing is committed. -/
theorem C7_invalid_operand_witness :
    noClassMatch ("bogus") = true
    ∧ processArgs stZero [("bogus")] = .error (("invalid operand: ") ++ ("bogus"))
    ∧ (runMain stZero [("bogus")]).committed = none
    ∧ (runMain stZero [("bogus")]).exitCode = 1 := by
  have h := C7_invalid_operand ("bogus") stZero [] (by decide) (by decide)
  exact ⟨by decide, h.1 stZero, h.2.2.1, h.2.2.2⟩

end Stty
